import Mathlib

/-!
Shallow embedding of parts of the mwc-wallet repository:

* slate versioning (`libwallet/src/slate_versions/mod.rs`),
* the file slate adapter's version-selection logic (`impls/src/adapters/file.rs`),
* the swap Buyer API (`libwallet/src/swap/buyer.rs`).

Machine integers (`u64`, `i64`) are embedded as `Nat`/`Int` with explicit
wrapping modulo `2^64` where the source's arithmetic may overflow.
External cryptographic primitives (keychain, secp256k1 aggsig, Pedersen
commitments) are out of scope of the repository; their results are embedded
as opaque deterministic numeric stand-ins, keeping the control flow,
guards and state updates of the source exact.
-/

namespace MwcWallet

/-- Network tag (mainnet/floonet); the swap types module is not in `src/`,
the two variants are those named by the spec. -/
inductive Network where
  | Mainnet
  | Floonet
deriving DecidableEq

/-- Secondary currency tag; per the spec (section 9) Btc is the only variant
implemented by the repository. -/
inductive Currency where
  | Btc
deriving DecidableEq

/-- Swap role, spec section 3: Seller is participant 0, Buyer participant 1. -/
inductive Role where
  | Seller
  | Buyer
deriving DecidableEq

/-- Swap status, the shared state enumeration of spec section 4.3. -/
inductive Status where
  | Created
  | Offered
  | Accepted
  | Locked
  | InitRedeem
  | Redeem
  | Completed
  | Refunded
  | Cancelled
deriving DecidableEq

/-- Action returned by the action advisor (`required_action`). -/
inductive Action where
  | None
  | SendMessage (n : Nat)
  | ReceiveMessage
  | PublishTx
  | ConfirmationRedeem
  | Complete
deriving DecidableEq

/-- Kernel features of a transaction kernel (`grin_core::core::KernelFeatures`),
the variants matched by `buyer.rs` (`Plain` / `HeightLocked`) plus `Coinbase`. -/
inductive KernelFeatures where
  | Plain (fee : Nat)
  | Coinbase
  | HeightLocked (fee : Nat) (lock_height : Nat)
deriving DecidableEq

/-- A transaction kernel; the excess and signature are external crypto data,
kept as opaque numbers. -/
structure TxKernel where
  features : KernelFeatures
  excess : Nat
  excess_sig : Nat
deriving DecidableEq

/-- A transaction input: the commitment it spends. -/
structure TxInput where
  commit : Nat
deriving DecidableEq

/-- A transaction output: commitment plus range proof (opaque). -/
structure TxOutput where
  commit : Nat
  proof : Nat
deriving DecidableEq

/-- Transaction body: inputs, outputs, kernels. -/
structure TxBody where
  inputs : List TxInput
  outputs : List TxOutput
  kernels : List TxKernel
deriving DecidableEq

/-- A transaction: offset plus body. -/
structure Transaction where
  offset : Nat
  body : TxBody
deriving DecidableEq

/-- Per-participant slate data (`ParticipantData`): id, round-1 public data and
the optional round-2 partial signature; `is_complete` is `part_sig.is_some()`. -/
structure ParticipantData where
  id : Nat
  public_blind_excess : Nat
  public_nonce : Nat
  part_sig : Option Nat
deriving DecidableEq

/-- Completion flag of a participant entry, as in the source:
present round-2 partial signature. -/
def ParticipantData.is_complete (p : ParticipantData) : Bool :=
  p.part_sig.isSome

/-- Payment proof data (a V3/V4-only slate field). -/
structure PaymentInfo where
  sender_address : Nat
  receiver_address : Nat
  receiver_signature : Option Nat
deriving DecidableEq

/-- Slate version-info block: version markers plus block header version. -/
structure VersionCompatInfo where
  version : Nat
  orig_version : Nat
  block_header_version : Nat
deriving DecidableEq

/-- The in-memory canonical slate (matches the newest wire version, spec
section 4.1): core fields, participant data, embedded transaction, version
info, and the V3+-only optional fields `payment_proof` and
`ttl_cutoff_height`. -/
structure Slate where
  id : Nat
  num_participants : Nat
  amount : Nat
  fee : Nat
  height : Nat
  lock_height : Nat
  participant_data : List ParticipantData
  tx : Transaction
  version_info : VersionCompatInfo
  payment_proof : Option PaymentInfo
  ttl_cutoff_height : Option Nat
deriving DecidableEq

/-- Slate wire versions (`slate_versions/mod.rs`). -/
inductive SlateVersion where
  | V4
  | V3B
  | V3
  | V2
deriving DecidableEq

/-- Modelled from the spec: the `SlateV4` struct (`slate_versions/v4.rs` is not
in `src/`). V4 is the newest version and carries every canonical field. -/
structure SlateV4 where
  id : Nat
  num_participants : Nat
  amount : Nat
  fee : Nat
  height : Nat
  lock_height : Nat
  participant_data : List ParticipantData
  tx : Transaction
  version_info : VersionCompatInfo
  payment_proof : Option PaymentInfo
  ttl_cutoff_height : Option Nat
deriving DecidableEq

/-- Modelled from the spec: the `SlateV3` struct (`slate_versions/v3.rs` is not
in `src/`). V3 also carries payment proof and TTL cutoff: `file.rs` selects V3
exactly when one of those is set, so they are representable at V3. -/
structure SlateV3 where
  id : Nat
  num_participants : Nat
  amount : Nat
  fee : Nat
  height : Nat
  lock_height : Nat
  participant_data : List ParticipantData
  tx : Transaction
  version_info : VersionCompatInfo
  payment_proof : Option PaymentInfo
  ttl_cutoff_height : Option Nat
deriving DecidableEq

/-- Modelled from the spec: the `SlateV2` struct (`slate_versions/v2.rs` is not
in `src/`). V2 does not know payment proof or TTL cutoff; downgrading drops
those fields (spec section 4.1). -/
structure SlateV2 where
  id : Nat
  num_participants : Nat
  amount : Nat
  fee : Nat
  height : Nat
  lock_height : Nat
  participant_data : List ParticipantData
  tx : Transaction
  version_info : VersionCompatInfo
deriving DecidableEq

/-- Modelled from the spec: `impl From<Slate> for SlateV4` — field-for-field. -/
def SlateV4.ofSlate (s : Slate) : SlateV4 :=
  ⟨s.id, s.num_participants, s.amount, s.fee, s.height, s.lock_height,
    s.participant_data, s.tx, s.version_info, s.payment_proof, s.ttl_cutoff_height⟩

/-- Modelled from the spec: `impl From<&SlateV4> for SlateV3` — both versions
carry payment proof and TTL cutoff, so the map is field-for-field. -/
def SlateV3.ofV4 (s : SlateV4) : SlateV3 :=
  ⟨s.id, s.num_participants, s.amount, s.fee, s.height, s.lock_height,
    s.participant_data, s.tx, s.version_info, s.payment_proof, s.ttl_cutoff_height⟩

/-- Modelled from the spec: `impl From<&SlateV3> for SlateV2` — the downgrade
drops the fields unknown to V2 (payment proof, TTL cutoff). The version
markers are carried through unchanged: `file.rs` sets them explicitly before
converting, so the conversion itself does not reset them. -/
def SlateV2.ofV3 (s : SlateV3) : SlateV2 :=
  ⟨s.id, s.num_participants, s.amount, s.fee, s.height, s.lock_height,
    s.participant_data, s.tx, s.version_info⟩

/-- Modelled from the spec: `impl From<SlateV2> for SlateV3` — the upgrade
re-embeds defaults (`None`) for the fields V2 lacks. -/
def SlateV3.ofV2 (s : SlateV2) : SlateV3 :=
  ⟨s.id, s.num_participants, s.amount, s.fee, s.height, s.lock_height,
    s.participant_data, s.tx, s.version_info, none, none⟩

/-- Modelled from the spec: `impl From<SlateV3> for SlateV4` — field-for-field. -/
def SlateV4.ofV3 (s : SlateV3) : SlateV4 :=
  ⟨s.id, s.num_participants, s.amount, s.fee, s.height, s.lock_height,
    s.participant_data, s.tx, s.version_info, s.payment_proof, s.ttl_cutoff_height⟩

/-- Modelled from the spec: `impl From<SlateV4> for Slate` — field-for-field. -/
def Slate.ofV4 (s : SlateV4) : Slate :=
  ⟨s.id, s.num_participants, s.amount, s.fee, s.height, s.lock_height,
    s.participant_data, s.tx, s.version_info, s.payment_proof, s.ttl_cutoff_height⟩

/-- A versioned slate (`slate_versions/mod.rs`), newest variant first. -/
inductive VersionedSlate where
  | V4 (s : SlateV4)
  | V3 (s : SlateV3)
  | V2 (s : SlateV2)
deriving DecidableEq

/-- `VersionedSlate::version` (`slate_versions/mod.rs`). -/
def VersionedSlate.version : VersionedSlate → SlateVersion
  | .V4 _ => .V4
  | .V3 _ => .V3
  | .V2 _ => .V2

/-- `VersionedSlate::into_version` (`slate_versions/mod.rs` lines 80-95):
convert a slate to a specified older version; V3B is serialized like V3. -/
def VersionedSlate.into_version (slate : Slate) (version : SlateVersion) :
    VersionedSlate :=
  match version with
  | .V4 => .V4 (SlateV4.ofSlate slate)
  | .V3B | .V3 => .V3 (SlateV3.ofV4 (SlateV4.ofSlate slate))
  | .V2 => .V2 (SlateV2.ofV3 (SlateV3.ofV4 (SlateV4.ofSlate slate)))

/-- `impl From<VersionedSlate> for Slate` (`slate_versions/mod.rs` lines
98-113): upgrade any wire version back to the canonical slate. -/
def Slate.ofVersioned : VersionedSlate → Slate
  | .V4 s => Slate.ofV4 s
  | .V3 s => Slate.ofV4 (SlateV4.ofV3 s)
  | .V2 s => Slate.ofV4 (SlateV4.ofV3 (SlateV3.ofV2 s))

/-- The version-info block stored in a versioned slate's payload. -/
def VersionedSlate.inner_version_info : VersionedSlate → VersionCompatInfo
  | .V4 s => s.version_info
  | .V3 s => s.version_info
  | .V2 s => s.version_info

/-- The out-slate selection of `PathToSlate::put_tx` (`impls/src/adapters/file.rs`
lines 33-53): the V4 branch is behind a literal `if false`; V3 is chosen when a
payment proof or a TTL cutoff height is present (after setting the version
markers to 3); V2 otherwise (markers set to 2). The file I/O around this
selection is out of scope. -/
def put_tx_out_slate (slate : Slate) : VersionedSlate :=
  if false then
    VersionedSlate.into_version slate SlateVersion.V4
  else if slate.payment_proof.isSome || slate.ttl_cutoff_height.isSome then
    let s := { slate with
      version_info := { slate.version_info with version := 3, orig_version := 3 } }
    VersionedSlate.into_version s SlateVersion.V3
  else
    let s := { slate with
      version_info := { slate.version_info with version := 2, orig_version := 2 } }
    VersionedSlate.into_version s SlateVersion.V2

/-- Error kinds of the swap module (spec section 7 plus the variants raised in
`buyer.rs`); reason strings are carried verbatim. -/
inductive ErrorKind where
  | IncompatibleVersion (got : Nat) (expected : Nat)
  | UnexpectedNetwork (s : String)
  | UnexpectedStatus (expected : Status) (got : Status)
  | UnexpectedAction (s : String)
  | InvalidMessageData (s : String)
  | InvalidLockHeightLockTx
  | OneShot (s : String)
  | Multisig (s : String)
  | IoError (s : String)
deriving DecidableEq

/-- The modulus of `u64` arithmetic. -/
def U64MOD : Nat := 2 ^ 64

/-- Wrapping `u64` addition (release-profile Rust overflow semantics). -/
def add64 (a b : Nat) : Nat := (a + b) % U64MOD

/-- Wrapping `u64` subtraction (release-profile Rust overflow semantics);
for `a, b < 2^64` this is two's-complement wraparound. -/
def sub64 (a b : Nat) : Nat := (a % U64MOD + (U64MOD - b % U64MOD)) % U64MOD

/-- Wrap an integer into the `i64` value range (release-profile Rust
overflow semantics for `i64` operations and `as i64` casts). -/
def wrapI64 (z : Int) : Int := (z + 2 ^ 63) % (2 ^ 64) - 2 ^ 63

/-- The `u64 as i64` cast. -/
def toI64 (n : Nat) : Int := wrapI64 (n : Int)

/-- Modelled from the spec: the canonical fee function
`grin_core::libtx::tx_fee(inputs, outputs, kernels, None)` (external library,
not part of this repository): base fee times the transaction weight. The
claims only compare fees computed by this same function, so the exact
constants are immaterial. -/
def tx_fee (inputs outputs kernels : Nat) : Nat :=
  1000000 * max 1 (4 * outputs + kernels - inputs)

/-- Modelled from the spec: the swap protocol version constant
`CURRENT_VERSION` (`swap/mod.rs` is not in `src/`; the value is immaterial,
only equality with it is checked). -/
def CURRENT_VERSION : Nat := 1

/-- Buyer-side signing context (`Context` with its buyer/btc sub-context):
nonces and key identifiers. Keychain key material is external; the fields are
opaque numbers. -/
structure Context where
  is_buyer : Bool
  multisig_nonce : Nat
  lock_nonce : Nat
  refund_nonce : Nat
  redeem_nonce : Nat
  redeem_key : Nat
  output_key : Nat
deriving DecidableEq

/-- Modelled from the spec (section 4.2): the two-party multisig builder state
(`swap/multisig.rs` is not in `src/`): per-party round data, plus the common
nonce filled once both round-1 payloads are known. Cryptographic payloads are
opaque numbers. -/
structure MultisigBuilder where
  num_participants : Nat
  amount : Nat
  commit_reveal : Bool
  participant_id : Nat
  nonce : Nat
  imported : Option Nat
  created : Option Nat
  round1_other : Option Nat
  round1_own : Option Nat
  round2_own : Option Nat
  common_nonce : Option Nat
deriving DecidableEq

/-- `MultisigBuilder::new` (modelled from the spec): a fresh builder with no
round data. -/
def MultisigBuilder.new (num_participants amount : Nat) (commit_reveal : Bool)
    (participant_id nonce : Nat) : MultisigBuilder :=
  ⟨num_participants, amount, commit_reveal, participant_id, nonce,
    none, none, none, none, none, none⟩

/-- Modelled from the spec (section 4.2): importing the counterparty's
participant record; a double import is rejected. -/
def MultisigBuilder.import_participant (m : MultisigBuilder) (p : Nat) :
    Option ErrorKind × MultisigBuilder :=
  if m.imported.isSome then
    (some (.Multisig "participant already imported"), m)
  else
    (none, { m with imported := some p })

/-- Modelled from the spec (section 4.2): creating the local participant
record; a double creation is rejected. -/
def MultisigBuilder.create_participant (m : MultisigBuilder) (secret : Nat) :
    Option ErrorKind × MultisigBuilder :=
  if m.created.isSome then
    (some (.Multisig "participant already created"), m)
  else
    (none, { m with created := some secret })

/-- Modelled from the spec (section 4.2): importing the counterparty's round-1
payload; a double import is rejected. -/
def MultisigBuilder.round_1_participant (m : MultisigBuilder) (p : Nat) :
    Option ErrorKind × MultisigBuilder :=
  if m.round1_other.isSome then
    (some (.Multisig "round 1 already imported"), m)
  else
    (none, { m with round1_other := some p })

/-- Modelled from the spec (section 4.2): producing the local round-1 payload. -/
def MultisigBuilder.round_1 (m : MultisigBuilder) (secret : Nat) :
    Option ErrorKind × MultisigBuilder :=
  if m.round1_own.isSome then
    (some (.Multisig "round 1 already done"), m)
  else
    (none, { m with round1_own := some (secret + 1) })

/-- Modelled from the spec (section 4.2): producing the local round-2 payload;
missing counterparty round-1 data is a fatal protocol error. -/
def MultisigBuilder.round_2 (m : MultisigBuilder) (secret : Nat) :
    Option ErrorKind × MultisigBuilder :=
  if m.round1_other.isNone then
    (some (.Multisig "round 1 of other party is missing"), m)
  else if m.round2_own.isSome then
    (some (.Multisig "round 2 already done"), m)
  else
    (none, { m with round2_own := some (secret + 2) })

/-- The joint Pedersen commitment of the builder (external crypto, opaque
deterministic stand-in). -/
def MultisigBuilder.commit (m : MultisigBuilder) : Nat :=
  m.amount * 2 + m.nonce + 1

/-- BTC secondary-chain data held by the swap; only the lock time participates
in the validation embedded here (`swap/bitcoin` is not in `src/`). -/
structure BtcData where
  lock_time : Nat
deriving DecidableEq

/-- The BTC part of the Seller's offer (`SecondaryUpdate` BTC offer payload):
the proposed lock time. -/
structure BtcOfferUpdate where
  lock_time : Nat
deriving DecidableEq

/-- Modelled from the spec: `BtcData::from_offer` (`swap/bitcoin` is not in
`src/`) — builds the BTC data record from the offer's BTC payload; the lock
address derivation is external crypto. -/
def BtcData.from_offer (upd : BtcOfferUpdate) : BtcData :=
  ⟨upd.lock_time⟩

/-- The `OfferUpdate` message (the Seller's offer as validated by
`BuyApi::accept_swap_offer`): version, network, start time (unix timestamp),
amounts, slates in wire form, the Seller's redeem participant entry, the
multisig round-1 payload (opaque), and the four confirmation/timeout
parameters. -/
structure OfferUpdate where
  version : Nat
  network : Network
  start_time : Int
  seller_lock_first : Bool
  primary_amount : Nat
  secondary_amount : Nat
  secondary_currency : Currency
  lock_slate : VersionedSlate
  refund_slate : VersionedSlate
  redeem_participant : ParticipantData
  multisig : Nat
  required_mwc_lock_confirmations : Nat
  required_secondary_lock_confirmations : Nat
  mwc_lock_time_seconds : Nat
  seller_redeem_time : Nat
deriving DecidableEq

/-- The Swap record, fields exactly as constructed by `accept_swap_offer`
(`buyer.rs` lines 260-288). -/
structure Swap where
  id : Nat
  idx : Nat
  version : Nat
  network : Network
  role : Role
  seller_lock_first : Bool
  started : Int
  status : Status
  primary_amount : Nat
  secondary_amount : Nat
  secondary_currency : Currency
  secondary_data : BtcData
  redeem_public : Option Nat
  participant_id : Nat
  multisig : MultisigBuilder
  lock_slate : Slate
  lock_confirmations : Option Nat
  refund_slate : Slate
  redeem_slate : Slate
  redeem_confirmations : Option Nat
  adaptor_signature : Option Nat
  required_mwc_lock_confirmations : Nat
  required_secondary_lock_confirmations : Nat
  mwc_lock_time_seconds : Nat
  seller_redeem_time : Nat
  message1 : Option Nat
  message2 : Option Nat
deriving DecidableEq

/-- A pure view of the node client's observations (spec section 6 node
interface): chain tip height, the set of unspent commitments the node knows,
the result of looking up the redeem kernel, and whether posting a transaction
succeeds. Transport errors other than a failed post are out of scope. -/
structure NodeView where
  tip_height : Nat
  unspent : List Nat
  redeem_kernel : Option (Nat × Nat)
  post_ok : Bool
deriving DecidableEq

/-- `get_outputs_from_node`: the subset of the queried commitments the node
reports as present. -/
def NodeView.get_outputs (n : NodeView) (commits : List Nat) : List Nat :=
  commits.filter (fun c => c ∈ n.unspent)

/-- Modelled from the spec: `Slate::blank(num_participants)` (`slate.rs` is
not in `src/`) — an empty slate with the given participant count. -/
def Slate.blank (n : Nat) : Slate :=
  ⟨0, n, 0, 0, 0, 0, [], ⟨0, ⟨[], [], []⟩⟩, ⟨4, 4, 3⟩, none, none⟩

/-- Modelled from the spec (section 4.5): `tx_add_input(slate, commit)`
appends an input spending the commitment (`swap/swap.rs` is not in `src/`). -/
def tx_add_input (s : Slate) (commit : Nat) : Slate :=
  { s with tx := { s.tx with body :=
      { s.tx.body with inputs := s.tx.body.inputs ++ [⟨commit⟩] } } }

/-- Modelled from the spec (section 4.5): `tx_add_output(slate, commit, proof)`
appends an output (`swap/swap.rs` is not in `src/`). -/
def tx_add_output (s : Slate) (commit proof : Nat) : Slate :=
  { s with tx := { s.tx with body :=
      { s.tx.body with outputs := s.tx.body.outputs ++ [⟨commit, proof⟩] } } }

/-- Modelled from the spec (section 3): `Slate::fill_round_1` (`slate.rs` is
not in `src/`) appends the party's round-1 participant entry (public blinding
and nonce, no partial signature yet); participant-data length grows by one. -/
def Slate.fill_round_1 (s : Slate) (blind nonce id : Nat) : Slate :=
  { s with participant_data := s.participant_data ++ [⟨id, blind, nonce, none⟩] }

/-- Modelled from the spec (section 3): `Slate::fill_round_2` (`slate.rs` is
not in `src/`) records the party's round-2 partial signature in its
participant entry. -/
def Slate.fill_round_2 (s : Slate) (secret nonce id : Nat) : Slate :=
  { s with participant_data := s.participant_data.map fun p =>
      if p.id = id then { p with part_sig := some (secret + nonce + 1) } else p }

/-- External keychain derivation (out of scope): the buyer's multisig blinding
secret, an opaque deterministic stand-in. -/
def multisig_secret (ctx : Context) : Nat := ctx.multisig_nonce + 1

/-- `BuyApi::lock_tx_secret` (`buyer.rs` lines 505-517): blind sum
`+ multisig_secret` (keychain blind-sum is external; stand-in value). -/
def lock_tx_secret (ctx : Context) : Nat := multisig_secret ctx

/-- `BuyApi::refund_tx_secret` (`buyer.rs` lines 557-569): blind sum
`- multisig_secret` (stand-in value). -/
def refund_tx_secret (ctx : Context) : Nat := multisig_secret ctx + 1

/-- `BuyApi::redeem_tx_secret` (`buyer.rs` lines 608-625): blind sum
`+ output_key - multisig_secret - offset` (stand-in value). -/
def redeem_tx_secret (ctx : Context) (sw : Swap) : Nat :=
  ctx.output_key + multisig_secret ctx + sw.redeem_slate.tx.offset

/-- `BuyApi::redeem_secret` (`buyer.rs` lines 470-478): the secret that
unlocks the funds on both chains (keychain derivation, stand-in value). -/
def redeem_secret (ctx : Context) : Nat := ctx.redeem_key

/-- The public key of the redeem secret (external secp256k1, stand-in). -/
def redeem_public_key (ctx : Context) : Nat := ctx.redeem_key + 1

/-- `BuyApi::sign_lock_slate` (`buyer.rs` lines 519-554): one-shot signing of
the lock slate. Returns the error (if any) together with the resulting swap;
the early `OneShot` return leaves the swap exactly as it was. -/
def sign_lock_slate (ctx : Context) (sw : Swap) : Option ErrorKind × Swap :=
  let sec_key := lock_tx_secret ctx
  if sw.lock_slate.participant_data.length > 1 then
    (some (.OneShot
      "Buyer Fn sign_lock_slate(), lock slate participant data is already initialized"),
      sw)
  else
    let slate := tx_add_output sw.lock_slate sw.multisig.commit 0
    let slate := slate.fill_round_1 sec_key ctx.lock_nonce sw.participant_id
    let slate := slate.fill_round_2 sec_key ctx.lock_nonce sw.participant_id
    (none, { sw with lock_slate := slate })

/-- `BuyApi::sign_refund_slate` (`buyer.rs` lines 571-605): one-shot signing
of the refund slate; the early `OneShot` return leaves the swap unchanged. -/
def sign_refund_slate (ctx : Context) (sw : Swap) : Option ErrorKind × Swap :=
  let commit := sw.multisig.commit
  let sec_key := refund_tx_secret ctx
  if sw.refund_slate.participant_data.length > 1 then
    (some (.OneShot
      "Buyer Fn sign_refund_slate(), refund slate participant data is already initialized"),
      sw)
  else
    let slate := tx_add_input sw.refund_slate commit
    let slate := slate.fill_round_1 sec_key ctx.refund_nonce sw.participant_id
    let slate := slate.fill_round_2 sec_key ctx.refund_nonce sw.participant_id
    (none, { sw with refund_slate := slate })

/-- `BuyApi::calculate_adaptor_signature` (`buyer.rs` lines 721-750): one-shot
computation of the adaptor signature (the aggsig operation is external; the
signature value is a stand-in); the guard on a present `adaptor_signature`
returns `OneShot` and leaves the swap unchanged. -/
def calculate_adaptor_signature (ctx : Context) (sw : Swap) :
    Option ErrorKind × Swap :=
  if sw.adaptor_signature.isSome then
    (some (.OneShot
      "Buyer calculate_adaptor_signature(), miltisig is already initialized"),
      sw)
  else
    let sec_key := redeem_tx_secret ctx sw
    (none, { sw with
      adaptor_signature := some (sec_key + redeem_secret ctx + ctx.redeem_nonce) })

/-- `BuyApi::build_multisig` (`buyer.rs` lines 480-502): import the Seller's
participant and round-1 payload, produce the local rounds, fill the common
nonce. Mutations made before a failing step persist (the caller then drops
the swap). -/
def build_multisig (ctx : Context) (sw0 : Swap) (part : Nat) :
    Option ErrorKind × Swap :=
  let ms := multisig_secret ctx
  match sw0.multisig.import_participant part with
  | (some e, m) => (some e, { sw0 with multisig := m })
  | (none, m) =>
  match m.create_participant ms with
  | (some e, m) => (some e, { sw0 with multisig := m })
  | (none, m) =>
  match m.round_1_participant part with
  | (some e, m) => (some e, { sw0 with multisig := m })
  | (none, m) =>
  match m.round_1 ms with
  | (some e, m) => (some e, { sw0 with multisig := m })
  | (none, m) =>
  let cn := m.nonce + m.imported.getD 0
  let m' := { m with common_nonce := some cn }
  match m'.round_2 ms with
  | (some e, m) => (some e, { sw0 with multisig := m })
  | (none, m) => (none, { sw0 with multisig := m })

/-- The protocol-version check of `accept_swap_offer` (`buyer.rs` lines 48-53). -/
def check_version (o : OfferUpdate) : Option ErrorKind :=
  if o.version ≠ CURRENT_VERSION then
    some (.IncompatibleVersion o.version CURRENT_VERSION)
  else none

/-- The network check (`buyer.rs` lines 56-61); the formatted network name in
the source's reason string is dropped. -/
def check_network (cur_network : Network) (o : OfferUpdate) : Option ErrorKind :=
  if o.network ≠ cur_network then
    some (.UnexpectedNetwork ", get offer for wrong network")
  else none

/-- The `context.unwrap_buyer()?` role check (`buyer.rs` line 63; the unwrap
itself lives in the types module, not in `src/`; reason string modelled). -/
def check_context (ctx : Context) : Option ErrorKind :=
  if ctx.is_buyer then none
  else some (.UnexpectedAction "Context::unwrap_buyer(), not a buyer context")

/-- The clock-skew check (`buyer.rs` lines 73-78): the offer's start time may
not lie more than 15 seconds after the buyer's local time. -/
def check_clock (now_ts : Int) (o : OfferUpdate) : Option ErrorKind :=
  if o.start_time > now_ts + 15 then
    some (.InvalidMessageData "Buyer/Seller clock are out of sync")
  else none

/-- The lock-slate input checks (`buyer.rs` lines 129-146): nonempty inputs,
all found at the node, slate height at most the chain tip. -/
def check_lock_inputs (node : NodeView) (lock_slate : Slate) : Option ErrorKind :=
  if lock_slate.tx.body.inputs.isEmpty then
    some (.InvalidMessageData "Lock Slate empty inputs")
  else if (node.get_outputs (lock_slate.tx.body.inputs.map (·.commit))).length
      ≠ lock_slate.tx.body.inputs.length then
    some (.InvalidMessageData "Lock Slate inputs are not found at the chain")
  else if lock_slate.height > node.tip_height then
    some (.InvalidMessageData "Lock Slate height is invalid")
  else none

/-- The lock-slate checks (`buyer.rs` lines 82-146), in source order:
lock height zero, amount, fee, participant count, single plain kernel with
matching fee, then the input checks. -/
def check_lock_slate (o : OfferUpdate) (node : NodeView) (lock_slate : Slate) :
    Option ErrorKind :=
  if lock_slate.lock_height > 0 then
    some .InvalidLockHeightLockTx
  else if lock_slate.amount ≠ o.primary_amount then
    some (.InvalidMessageData "Lock Slate amount doesn't match offer")
  else if lock_slate.fee ≠ tx_fee lock_slate.tx.body.inputs.length
      (lock_slate.tx.body.outputs.length + 1) 1 then
    some (.InvalidMessageData "Lock Slate fee doesn't match expected value")
  else if lock_slate.num_participants ≠ 2 then
    some (.InvalidMessageData "Lock Slate participans doesn't match expected value")
  else if lock_slate.tx.body.kernels.length ≠ 1 then
    some (.InvalidMessageData "Lock Slate invalid kernels")
  else
    match lock_slate.tx.body.kernels.head? with
    | none => some (.InvalidMessageData "Lock Slate invalid kernels")
    | some k =>
      match k.features with
      | .Plain fee =>
        if fee ≠ lock_slate.fee then
          some (.InvalidMessageData "Lock Slate invalid kernel fee")
        else
          check_lock_inputs node lock_slate
      | _ => some (.InvalidMessageData "Lock Slate invalid kernel feature")

/-- The refund lock-height checks (`buyer.rs` lines 155-172): first the
confirmation bound `2 * required_mwc_lock_confirmations + 10`, then
`max(mwc_lock_time_seconds/2/60, mwc_lock_time_seconds/60 - 10)`; all `u64`
arithmetic wraps modulo `2^64`. -/
def check_refund_height (tip : Nat) (o : OfferUpdate) (refund_slate : Slate) :
    Option ErrorKind :=
  let min_block_height :=
    add64 (add64 o.required_mwc_lock_confirmations o.required_mwc_lock_confirmations) 10
  if refund_slate.lock_height < add64 tip min_block_height then
    some (.InvalidMessageData
      "Refund lock slate doesn't meet required number of confirmations")
  else
    let min_block_height' :=
      max (o.mwc_lock_time_seconds / 2 / 60) (sub64 (o.mwc_lock_time_seconds / 60) 10)
    if refund_slate.lock_height < add64 tip min_block_height' then
      some (.InvalidMessageData "Refund lock slate doesn't meet required mwc_lock_time")
    else none

/-- The remaining refund-slate checks (`buyer.rs` lines 173-206), in source
order: single height-locked kernel with matching fee and lock height,
participant count, `refund.amount + refund.fee == lock.amount`, canonical fee. -/
def check_refund_rest (lock_slate refund_slate : Slate) : Option ErrorKind :=
  if refund_slate.tx.body.kernels.length ≠ 1 then
    some (.InvalidMessageData "Refund Slate invalid kernel")
  else
    match refund_slate.tx.body.kernels.head? with
    | none => some (.InvalidMessageData "Refund Slate invalid kernel")
    | some k =>
      match k.features with
      | .HeightLocked fee lock_height =>
        if fee ≠ refund_slate.fee || lock_height ≠ refund_slate.lock_height then
          some (.InvalidMessageData "Refund Slate invalid kernel fee or height")
        else if refund_slate.num_participants ≠ 2 then
          some (.InvalidMessageData "Refund Slate participans doesn't match expected value")
        else if add64 refund_slate.amount refund_slate.fee ≠ lock_slate.amount then
          some (.InvalidMessageData "Refund Slate amount doesn't match offer")
        else if refund_slate.fee ≠ tx_fee 1 1 1 then
          some (.InvalidMessageData "Refund Slate fee doesn't match expected value")
        else none
      | _ => some (.InvalidMessageData "Refund Slate invalid kernel feature")

/-- The secondary-currency check (`buyer.rs` lines 209-213). -/
def check_currency (o : OfferUpdate) : Option ErrorKind :=
  if o.secondary_currency ≠ Currency.Btc then
    some (.InvalidMessageData "Unexpected currency value")
  else none

/-- The BTC lock-time check (`buyer.rs` lines 221-232): the observed BTC lock
time must lie within `seller_redeem_time / 20` of
`now + (refund.lock_height - tip) * 60 + seller_redeem_time`; the `u64`
subtraction wraps, the `as i64` casts and `i64` operations wrap into the
`i64` range. -/
def check_btc_time (now_ts : Int) (tip : Nat) (o : OfferUpdate)
    (refund_slate : Slate) (btc_data : BtcData) : Option ErrorKind :=
  let mwc_lock_time :=
    wrapI64 (now_ts + wrapI64 (toI64 (sub64 refund_slate.lock_height tip) * 60))
  let expected_secondary_lock_time :=
    wrapI64 (mwc_lock_time + toI64 o.seller_redeem_time)
  if ((wrapI64 (toI64 btc_data.lock_time - expected_secondary_lock_time)).natAbs : Int)
      > toI64 (o.seller_redeem_time / 20) then
    some (.InvalidMessageData "Secondary lock time is different from the expected")
  else none

/-- The tail of the validation chain from the refund lock-height checks on
(`buyer.rs` lines 155-232), checks in source order. -/
def accept_offer_checks_tail (now_ts : Int) (tip : Nat) (o : OfferUpdate)
    (lock_slate refund_slate : Slate) (btc_data : BtcData) : Option ErrorKind :=
  match check_refund_height tip o refund_slate with
  | some e => some e
  | none =>
  match check_refund_rest lock_slate refund_slate with
  | some e => some e
  | none =>
  match check_currency o with
  | some e => some e
  | none => check_btc_time now_ts tip o refund_slate btc_data

/-- The full validation chain of `BuyApi::accept_swap_offer` (`buyer.rs`
lines 46-232), checks in source order (each `some` is the source's early
`return Err(..)`); `none` means every validation item passed. -/
def accept_offer_checks (ctx : Context) (cur_network : Network) (now_ts : Int)
    (node : NodeView) (o : OfferUpdate) (secondary : BtcOfferUpdate) :
    Option ErrorKind :=
  let lock_slate := Slate.ofVersioned o.lock_slate
  let refund_slate := Slate.ofVersioned o.refund_slate
  let btc_data := BtcData.from_offer secondary
  match check_version o with
  | some e => some e
  | none =>
  match check_network cur_network o with
  | some e => some e
  | none =>
  match check_context ctx with
  | some e => some e
  | none =>
  match check_clock now_ts o with
  | some e => some e
  | none =>
  match check_lock_slate o node lock_slate with
  | some e => some e
  | none => accept_offer_checks_tail now_ts node.tip_height o lock_slate refund_slate btc_data

/-- The construction phase of `BuyApi::accept_swap_offer` (`buyer.rs` lines
234-299), reached once every validation item passed: redeem slate, multisig
builder, the Swap record, redeem public key, multisig rounds and the two
one-shot slate signings. -/
def accept_offer_build (ctx : Context) (node : NodeView) (id : Nat)
    (offer : OfferUpdate) (secondary : BtcOfferUpdate) : Except ErrorKind Swap :=
    let lock_slate := Slate.ofVersioned offer.lock_slate
    let refund_slate := Slate.ofVersioned offer.refund_slate
    let btc_data := BtcData.from_offer secondary
    let height := node.tip_height
    let redeem_slate := Slate.blank 2
    let redeem_slate := { redeem_slate with fee := tx_fee 1 1 1, height := height }
    let redeem_slate :=
      { redeem_slate with amount := offer.primary_amount - redeem_slate.fee }
    let redeem_slate := { redeem_slate with
      participant_data := redeem_slate.participant_data ++ [offer.redeem_participant] }
    let multisig := MultisigBuilder.new 2 offer.primary_amount false 1 ctx.multisig_nonce
    let swap : Swap := {
      id := id
      idx := 0
      version := CURRENT_VERSION
      network := offer.network
      role := .Buyer
      seller_lock_first := offer.seller_lock_first
      started := offer.start_time
      status := .Offered
      primary_amount := offer.primary_amount
      secondary_amount := offer.secondary_amount
      secondary_currency := offer.secondary_currency
      secondary_data := btc_data
      redeem_public := none
      participant_id := 1
      multisig := multisig
      lock_slate := lock_slate
      lock_confirmations := none
      refund_slate := refund_slate
      redeem_slate := redeem_slate
      redeem_confirmations := none
      adaptor_signature := none
      required_mwc_lock_confirmations := offer.required_mwc_lock_confirmations
      required_secondary_lock_confirmations := offer.required_secondary_lock_confirmations
      mwc_lock_time_seconds := offer.mwc_lock_time_seconds
      seller_redeem_time := offer.seller_redeem_time
      message1 := none
      message2 := none }
    let swap := { swap with redeem_public := some (redeem_public_key ctx) }
    match build_multisig ctx swap offer.multisig with
    | (some e, _) => .error e
    | (none, swap) =>
    match sign_lock_slate ctx swap with
    | (some e, _) => .error e
    | (none, swap) =>
    match sign_refund_slate ctx swap with
    | (some e, _) => .error e
    | (none, swap) => .ok swap

/-- `BuyApi::accept_swap_offer` (`buyer.rs` lines 39-300): the validation
chain, then the construction phase. Any failure returns the error alone: no
Swap accompanies an `Err`. -/
def accept_swap_offer (ctx : Context) (cur_network : Network) (now_ts : Int)
    (node : NodeView) (id : Nat) (offer : OfferUpdate)
    (secondary : BtcOfferUpdate) : Except ErrorKind Swap :=
  match accept_offer_checks ctx cur_network now_ts node offer secondary with
  | some e => .error e
  | none => accept_offer_build ctx node id offer secondary

/-- `BuyApi::required_action` (`buyer.rs` lines 410-439). `none` embeds the
panic of the `unreachable!()` arm on status `Accepted`; otherwise the advised
action together with the (possibly updated) swap: on status `Redeem` with
confirmations present and the redeem kernel observed, the swap's
`redeem_confirmations` is recomputed and its status set to `Completed`. -/
def required_action (node : NodeView) (swap : Swap) : Option (Action × Swap) :=
  match swap.status with
  | .Offered => some (.SendMessage 1, swap)
  | .Accepted => none
  | .Locked => some (.SendMessage 2, swap)
  | .InitRedeem => some (.ReceiveMessage, swap)
  | .Redeem =>
    if swap.redeem_confirmations.isNone then
      some (.PublishTx, swap)
    else
      match node.redeem_kernel with
      | some (_, h) =>
        let height := node.tip_height
        some (.Complete, { swap with
          redeem_confirmations := some (add64 (height - h) 1)
          status := .Completed })
      | none => some (.ConfirmationRedeem, swap)
  | _ => some (.None, swap)

/-- Modelled from the spec (section 6): `swap::publish_transaction` posts a
transaction through the node client (`swap/swap.rs` is not in `src/`); only
the success/failure of the post is observable here. -/
def node_post_tx (node : NodeView) (tx : Transaction) : Option ErrorKind :=
  if node.post_ok then none else some (.IoError "post_tx failed")

/-- `BuyApi::publish_transaction` (`buyer.rs` lines 379-408): the result, the
resulting swap, and the transaction posted to the node (if any). With
`retry = true` the status check and the already-published guard are skipped;
the formatted status in the source's unexpected-status reason is dropped. -/
def buyer_publish_transaction (node : NodeView) (swap : Swap) (retry : Bool) :
    Option ErrorKind × Swap × Option Transaction :=
  if retry then
    match node_post_tx node swap.redeem_slate.tx with
    | some e => (some e, swap, none)
    | none =>
      (none, { swap with redeem_confirmations := some 0 }, some swap.redeem_slate.tx)
  else
    match swap.status with
    | .Redeem =>
      if swap.redeem_confirmations.isSome then
        (some (.UnexpectedAction
          "Buyer Fn publish_transaction(), redeem_confirmations already defined"),
          swap, none)
      else
        match node_post_tx node swap.redeem_slate.tx with
        | some e => (some e, swap, none)
        | none =>
          (none, { swap with redeem_confirmations := some 0 }, some swap.redeem_slate.tx)
    | _ =>
      (some (.UnexpectedAction "Buyer Fn publish_transaction(), unexpected status"),
        swap, none)

/-! ### Helper lemmas: wrap-free arithmetic under range bounds -/

theorem add64_eq (a b : Nat) (h : a + b < 2 ^ 64) : add64 a b = a + b := by
  unfold add64 U64MOD
  omega

theorem sub64_eq (a b : Nat) (hb : b ≤ a) (ha : a < 2 ^ 64) : sub64 a b = a - b := by
  unfold sub64 U64MOD
  omega

theorem wrapI64_eq (z : Int) (h1 : -(2 ^ 63) ≤ z) (h2 : z < 2 ^ 63) : wrapI64 z = z := by
  unfold wrapI64
  omega

theorem toI64_eq (n : Nat) (h : n < 2 ^ 63) : toI64 n = (n : Int) := by
  unfold toI64
  rw [wrapI64_eq] <;> omega

/-! ### Helper lemmas: the possible results of each validation item -/

/-- The reason strings of the lock-slate checks. -/
def lock_slate_strings : List String :=
  ["Lock Slate amount doesn't match offer",
   "Lock Slate fee doesn't match expected value",
   "Lock Slate participans doesn't match expected value",
   "Lock Slate invalid kernels",
   "Lock Slate invalid kernel fee",
   "Lock Slate invalid kernel feature",
   "Lock Slate empty inputs",
   "Lock Slate inputs are not found at the chain",
   "Lock Slate height is invalid"]

/-- The reason strings of the refund lock-height checks. -/
def refund_height_strings : List String :=
  ["Refund lock slate doesn't meet required number of confirmations",
   "Refund lock slate doesn't meet required mwc_lock_time"]

/-- The reason strings of the remaining refund-slate checks. -/
def refund_rest_strings : List String :=
  ["Refund Slate invalid kernel",
   "Refund Slate invalid kernel fee or height",
   "Refund Slate participans doesn't match expected value",
   "Refund Slate amount doesn't match offer",
   "Refund Slate fee doesn't match expected value",
   "Refund Slate invalid kernel feature"]

theorem check_version_shape (o : OfferUpdate) :
    check_version o = none
    ∨ check_version o = some (.IncompatibleVersion o.version CURRENT_VERSION) := by
  unfold check_version
  split
  · exact Or.inr rfl
  · exact Or.inl rfl

theorem check_network_shape (net : Network) (o : OfferUpdate) :
    check_network net o = none
    ∨ check_network net o = some (.UnexpectedNetwork ", get offer for wrong network") := by
  unfold check_network
  split
  · exact Or.inr rfl
  · exact Or.inl rfl

theorem check_context_shape (ctx : Context) :
    check_context ctx = none
    ∨ check_context ctx =
        some (.UnexpectedAction "Context::unwrap_buyer(), not a buyer context") := by
  unfold check_context
  split
  · exact Or.inl rfl
  · exact Or.inr rfl

theorem check_clock_shape (now_ts : Int) (o : OfferUpdate) :
    check_clock now_ts o = none
    ∨ check_clock now_ts o =
        some (.InvalidMessageData "Buyer/Seller clock are out of sync") := by
  unfold check_clock
  split
  · exact Or.inr rfl
  · exact Or.inl rfl

theorem check_lock_inputs_shape (node : NodeView) (ls : Slate) :
    check_lock_inputs node ls = none
    ∨ ∃ s, s ∈ lock_slate_strings
        ∧ check_lock_inputs node ls = some (.InvalidMessageData s) := by
  unfold check_lock_inputs
  split
  · exact Or.inr ⟨_, by decide, rfl⟩
  · split
    · exact Or.inr ⟨_, by decide, rfl⟩
    · split
      · exact Or.inr ⟨_, by decide, rfl⟩
      · exact Or.inl rfl

theorem check_lock_slate_shape (o : OfferUpdate) (node : NodeView) (ls : Slate) :
    check_lock_slate o node ls = none
    ∨ check_lock_slate o node ls = some .InvalidLockHeightLockTx
    ∨ ∃ s, s ∈ lock_slate_strings
        ∧ check_lock_slate o node ls = some (.InvalidMessageData s) := by
  unfold check_lock_slate
  split
  · exact Or.inr (Or.inl rfl)
  split
  · exact Or.inr (Or.inr ⟨_, by decide, rfl⟩)
  split
  · exact Or.inr (Or.inr ⟨_, by decide, rfl⟩)
  split
  · exact Or.inr (Or.inr ⟨_, by decide, rfl⟩)
  split
  · exact Or.inr (Or.inr ⟨_, by decide, rfl⟩)
  cases hk : ls.tx.body.kernels.head? with
  | none => exact Or.inr (Or.inr ⟨_, by decide, rfl⟩)
  | some k =>
    dsimp only
    cases hf : k.features with
    | Plain fee =>
      dsimp only
      split
      · exact Or.inr (Or.inr ⟨_, by decide, rfl⟩)
      · rcases check_lock_inputs_shape node ls with h | ⟨s, hs, h⟩
        · exact Or.inl h
        · exact Or.inr (Or.inr ⟨s, hs, h⟩)
    | Coinbase => exact Or.inr (Or.inr ⟨_, by decide, rfl⟩)
    | HeightLocked fee lh => exact Or.inr (Or.inr ⟨_, by decide, rfl⟩)

theorem check_refund_height_shape (tip : Nat) (o : OfferUpdate) (rs : Slate) :
    check_refund_height tip o rs = none
    ∨ ∃ s, s ∈ refund_height_strings
        ∧ check_refund_height tip o rs = some (.InvalidMessageData s) := by
  simp only [check_refund_height]
  split
  · exact Or.inr ⟨_, by decide, rfl⟩
  · split
    · exact Or.inr ⟨_, by decide, rfl⟩
    · exact Or.inl rfl

theorem check_refund_rest_shape (ls rs : Slate) :
    check_refund_rest ls rs = none
    ∨ ∃ s, s ∈ refund_rest_strings
        ∧ check_refund_rest ls rs = some (.InvalidMessageData s) := by
  unfold check_refund_rest
  split
  · exact Or.inr ⟨_, by decide, rfl⟩
  cases hk : rs.tx.body.kernels.head? with
  | none => exact Or.inr ⟨_, by decide, rfl⟩
  | some k =>
    dsimp only
    cases hf : k.features with
    | HeightLocked fee lh =>
      dsimp only
      split
      · exact Or.inr ⟨_, by decide, rfl⟩
      split
      · exact Or.inr ⟨_, by decide, rfl⟩
      split
      · exact Or.inr ⟨_, by decide, rfl⟩
      split
      · exact Or.inr ⟨_, by decide, rfl⟩
      · exact Or.inl rfl
    | Plain fee => exact Or.inr ⟨_, by decide, rfl⟩
    | Coinbase => exact Or.inr ⟨_, by decide, rfl⟩

theorem check_currency_shape (o : OfferUpdate) :
    check_currency o = none
    ∨ check_currency o = some (.InvalidMessageData "Unexpected currency value") := by
  unfold check_currency
  split
  · exact Or.inr rfl
  · exact Or.inl rfl

theorem check_btc_time_shape (now_ts : Int) (tip : Nat) (o : OfferUpdate)
    (rs : Slate) (bd : BtcData) :
    check_btc_time now_ts tip o rs bd = none
    ∨ check_btc_time now_ts tip o rs bd =
        some (.InvalidMessageData "Secondary lock time is different from the expected") := by
  simp only [check_btc_time]
  split
  · exact Or.inr rfl
  · exact Or.inl rfl

/-- The construction phase either succeeds or fails with one of the two
one-shot guards (the multisig rounds on the freshly created builder always
succeed). -/
theorem accept_offer_build_shape (ctx : Context) (node : NodeView) (id : Nat)
    (o : OfferUpdate) (b : BtcOfferUpdate) :
    (∃ sw, accept_offer_build ctx node id o b = .ok sw)
    ∨ accept_offer_build ctx node id o b = .error (.OneShot
        "Buyer Fn sign_lock_slate(), lock slate participant data is already initialized")
    ∨ accept_offer_build ctx node id o b = .error (.OneShot
        "Buyer Fn sign_refund_slate(), refund slate participant data is already initialized") := by
  unfold accept_offer_build
  simp only [build_multisig, MultisigBuilder.new, MultisigBuilder.import_participant,
    MultisigBuilder.create_participant, MultisigBuilder.round_1_participant,
    MultisigBuilder.round_1, MultisigBuilder.round_2, Option.isSome, Option.isNone]
  by_cases h1 : (Slate.ofVersioned o.lock_slate).participant_data.length > 1
  · simp [sign_lock_slate, h1]
  · by_cases h2 : (Slate.ofVersioned o.refund_slate).participant_data.length > 1
    · simp [sign_lock_slate, sign_refund_slate, h1, h2]
    · simp [sign_lock_slate, sign_refund_slate, h1, h2]

/-- A validation failure is returned as-is by `accept_swap_offer`. -/
theorem accept_of_checks_some (ctx : Context) (net : Network) (now_ts : Int)
    (node : NodeView) (id : Nat) (o : OfferUpdate) (b : BtcOfferUpdate)
    (e : ErrorKind) (h : accept_offer_checks ctx net now_ts node o b = some e) :
    accept_swap_offer ctx net now_ts node id o b = .error e := by
  unfold accept_swap_offer
  rw [h]

/-- For any error that is not a `OneShot`, `accept_swap_offer` returns it
exactly when the validation chain produced it. -/
theorem accept_error_iff (ctx : Context) (net : Network) (now_ts : Int)
    (node : NodeView) (id : Nat) (o : OfferUpdate) (b : BtcOfferUpdate)
    (e : ErrorKind) (hne : ∀ s, e = .OneShot s → False) :
    accept_swap_offer ctx net now_ts node id o b = .error e
      ↔ accept_offer_checks ctx net now_ts node o b = some e := by
  unfold accept_swap_offer
  cases h : accept_offer_checks ctx net now_ts node o b with
  | none =>
    simp only []
    rcases accept_offer_build_shape ctx node id o b with ⟨sw, hb⟩ | hb | hb <;>
      rw [hb] <;> simp <;> intro hcontra <;> exact hne _ hcontra.symm
  | some e' => simp

/-! ### Concrete sample data for witnesses and counterexamples -/

/-- A concrete buyer context. -/
def sample_ctx : Context := ⟨true, 11, 12, 13, 14, 15, 16⟩

/-- A concrete node view: tip height 100, one unspent commitment, a redeem
kernel at height 50, posting succeeds. -/
def sample_node : NodeView := ⟨100, [21], some (1, 50), true⟩

/-- A concrete swap record. -/
def sample_swap : Swap :=
  { id := 7
    idx := 0
    version := CURRENT_VERSION
    network := .Mainnet
    role := .Buyer
    seller_lock_first := false
    started := 0
    status := .Offered
    primary_amount := 1000000000
    secondary_amount := 1000000
    secondary_currency := .Btc
    secondary_data := ⟨600000⟩
    redeem_public := none
    participant_id := 1
    multisig := MultisigBuilder.new 2 1000000000 false 1 5
    lock_slate := Slate.blank 2
    lock_confirmations := none
    refund_slate := Slate.blank 2
    redeem_slate := Slate.blank 2
    redeem_confirmations := none
    adaptor_signature := none
    required_mwc_lock_confirmations := 10
    required_secondary_lock_confirmations := 2
    mwc_lock_time_seconds := 7200
    seller_redeem_time := 3600
    message1 := none
    message2 := none }

/-- Two completed participant entries, for exercising the one-shot guards. -/
def two_participants : List ParticipantData := [⟨0, 1, 2, none⟩, ⟨1, 3, 4, some 9⟩]

/-- A swap whose lock and refund slates already carry two participant entries
and whose adaptor signature is already set. -/
def c4_swap : Swap :=
  { sample_swap with
    lock_slate := { Slate.blank 2 with participant_data := two_participants }
    refund_slate := { Slate.blank 2 with participant_data := two_participants }
    adaptor_signature := some 3 }

/-! ### C7 — slate version conversion round trip -/

/-- C7: for every slate and every version v in (V2, V3, V4), converting down
with `VersionedSlate::into_version` and back up with `Slate::from` yields the
slate back unchanged, provided the slate carries only fields representable at
v — for V2 that means no payment proof and no TTL cutoff height. -/
theorem c7_into_version_roundtrip (s : Slate) (v : SlateVersion)
    (hv : v = SlateVersion.V4 ∨ v = SlateVersion.V3 ∨ v = SlateVersion.V2)
    (h2 : v = SlateVersion.V2 → s.payment_proof = none ∧ s.ttl_cutoff_height = none) :
    Slate.ofVersioned (VersionedSlate.into_version s v) = s := by
  rcases hv with h | h | h <;> subst h
  · cases s
    rfl
  · cases s
    rfl
  · obtain ⟨hp, ht⟩ := h2 rfl
    cases s
    simp only [VersionedSlate.into_version, Slate.ofVersioned, Slate.ofV4,
      SlateV4.ofV3, SlateV3.ofV2, SlateV2.ofV3, SlateV3.ofV4, SlateV4.ofSlate] at *
    simp [hp, ht]

/-- C7 witness: the round trip through V2 at a concrete slate without payment
proof or TTL cutoff. -/
theorem c7_witness :
    Slate.ofVersioned (VersionedSlate.into_version (Slate.blank 2) SlateVersion.V2)
      = Slate.blank 2 :=
  c7_into_version_roundtrip (Slate.blank 2) SlateVersion.V2
    (Or.inr (Or.inr rfl)) (fun _ => ⟨rfl, rfl⟩)

/-! ### C8 — put_tx version selection policy -/

/-- C8: `PathToSlate::put_tx` serializes at V3 (with version markers set
to 3) exactly when a payment proof or a TTL cutoff height is present, at V2
(markers set to 2) otherwise, and never at V4 (the V4 branch is behind a
literal `if false`). -/
theorem c8_put_tx_version_policy (s : Slate) :
    (put_tx_out_slate s).version
      = (if s.payment_proof.isSome || s.ttl_cutoff_height.isSome
          then SlateVersion.V3 else SlateVersion.V2)
    ∧ (put_tx_out_slate s).inner_version_info.version
      = (if s.payment_proof.isSome || s.ttl_cutoff_height.isSome then 3 else 2)
    ∧ (put_tx_out_slate s).inner_version_info.orig_version
      = (if s.payment_proof.isSome || s.ttl_cutoff_height.isSome then 3 else 2)
    ∧ ((put_tx_out_slate s).version == SlateVersion.V4) = false := by
  by_cases h : (s.payment_proof.isSome || s.ttl_cutoff_height.isSome) = true <;>
    simp [put_tx_out_slate, h, VersionedSlate.into_version, VersionedSlate.version,
      VersionedSlate.inner_version_info, SlateV3.ofV4, SlateV4.ofSlate, SlateV2.ofV3]

/-! ### C10 — publish_transaction with retry bypasses both guards -/

/-- C10: for every swap — any status, any present `redeem_confirmations` —
`publish_transaction` with `retry = true` posts the redeem transaction and
resets `redeem_confirmations` to `Some(0)`, bypassing the status check and
the already-published guard of the `retry = false` path. -/
theorem c10_publish_retry (node : NodeView) (swap : Swap)
    (hpost : node.post_ok = true) :
    buyer_publish_transaction node swap true =
      (none, { swap with redeem_confirmations := some 0 }, some swap.redeem_slate.tx) := by
  simp [buyer_publish_transaction, node_post_tx, hpost]

/-- C10 witness: at a concrete swap in status Created with
`redeem_confirmations` already set — both guards of the non-retry path would
fire — the retry call still posts and resets the count to zero. -/
theorem c10_witness :
    buyer_publish_transaction sample_node
        { sample_swap with status := .Created, redeem_confirmations := some 5 } true =
      (none,
        { sample_swap with status := .Created, redeem_confirmations := some 0 },
        some sample_swap.redeem_slate.tx) :=
  c10_publish_retry sample_node
    { sample_swap with status := .Created, redeem_confirmations := some 5 } rfl

/-! ### C4 — one-shot guards leave the swap unchanged -/

/-- C4: calling `sign_lock_slate` or `sign_refund_slate` when the slate
already has more than one participant entry, or `calculate_adaptor_signature`
when the adaptor signature is already present, returns a `OneShot` error and
leaves the Swap record unchanged. -/
theorem c4_one_shot_guards (ctx : Context) (sw : Swap) :
    (sw.lock_slate.participant_data.length > 1 →
      sign_lock_slate ctx sw = (some (.OneShot
        "Buyer Fn sign_lock_slate(), lock slate participant data is already initialized"), sw))
    ∧ (sw.refund_slate.participant_data.length > 1 →
      sign_refund_slate ctx sw = (some (.OneShot
        "Buyer Fn sign_refund_slate(), refund slate participant data is already initialized"), sw))
    ∧ (sw.adaptor_signature.isSome = true →
      calculate_adaptor_signature ctx sw = (some (.OneShot
        "Buyer calculate_adaptor_signature(), miltisig is already initialized"), sw)) := by
  refine ⟨fun h => ?_, fun h => ?_, fun h => ?_⟩ <;>
    simp [sign_lock_slate, sign_refund_slate, calculate_adaptor_signature, h]

/-- C4 witness: the three guards at a concrete swap whose slates already
carry two participant entries and whose adaptor signature is set. -/
theorem c4_witness :
    sign_lock_slate sample_ctx c4_swap = (some (.OneShot
      "Buyer Fn sign_lock_slate(), lock slate participant data is already initialized"), c4_swap)
    ∧ sign_refund_slate sample_ctx c4_swap = (some (.OneShot
      "Buyer Fn sign_refund_slate(), refund slate participant data is already initialized"), c4_swap)
    ∧ calculate_adaptor_signature sample_ctx c4_swap = (some (.OneShot
      "Buyer calculate_adaptor_signature(), miltisig is already initialized"), c4_swap) :=
  ⟨(c4_one_shot_guards sample_ctx c4_swap).1 (by decide),
   (c4_one_shot_guards sample_ctx c4_swap).2.1 (by decide),
   (c4_one_shot_guards sample_ctx c4_swap).2.2 (by decide)⟩

/-! ### C6 — required_action totality (corrected: the Accepted branch panics) -/

/-- C6 counterexample: on a Buyer swap in status Accepted, `required_action`
does not return an action: the source hits `unreachable!()` and panics
(embedded as `none`), refuting that the Accepted branch is reachable and
total. -/
theorem c6_counterexample :
    required_action sample_node { sample_swap with status := Status.Accepted } = none := rfl

/-- C6 amended: for every Buyer swap whose status is not Accepted and every
chain observation, `required_action` returns normally with the action
determined by the status (SendMessage 1 on Offered, SendMessage 2 on Locked,
ReceiveMessage on InitRedeem, PublishTx / Complete / ConfirmationRedeem on
Redeem, None otherwise); on Accepted the source panics. -/
theorem c6_required_action_total (node : NodeView) (sw : Swap)
    (h : sw.status = Status.Accepted → False) :
    (required_action node sw).isSome = true
    ∧ (required_action node sw).map Prod.fst = some (
        match sw.status, sw.redeem_confirmations, node.redeem_kernel with
        | .Offered, _, _ => Action.SendMessage 1
        | .Locked, _, _ => Action.SendMessage 2
        | .InitRedeem, _, _ => Action.ReceiveMessage
        | .Redeem, none, _ => Action.PublishTx
        | .Redeem, some _, some _ => Action.Complete
        | .Redeem, some _, none => Action.ConfirmationRedeem
        | _, _, _ => Action.None) := by
  cases hs : sw.status
  case Accepted => exact absurd hs h
  case Redeem =>
    rcases hrc : sw.redeem_confirmations with _ | c
    · simp [required_action, hs, hrc]
    · rcases hk : node.redeem_kernel with _ | ⟨k, hgt⟩ <;>
        simp [required_action, hs, hrc, hk]
  all_goals simp [required_action, hs]

/-- C6 witness: at a concrete swap in status Offered the advisor returns. -/
theorem c6_witness : (required_action sample_node sample_swap).isSome = true :=
  (c6_required_action_total sample_node sample_swap (by simp [sample_swap])).1

/-! ### C5 — required_action frame (corrected: status is also mutated) -/

/-- A concrete swap in status Redeem with confirmations already recorded. -/
def c5_swap : Swap :=
  { sample_swap with status := .Redeem, redeem_confirmations := some 3 }

/-- The swap `required_action` produces from `c5_swap` under `sample_node`:
confirmations recomputed and status advanced to Completed. -/
def c5_swap' : Swap :=
  { sample_swap with status := .Completed, redeem_confirmations := some 51 }

/-- C5 counterexample: upon observing the redeem kernel, `required_action`
does not only update `redeem_confirmations` — it also mutates `status` (from
Redeem to Completed), refuting that every other field including status is
unchanged. -/
theorem c5_counterexample :
    (required_action sample_node c5_swap).map (fun p => p.2.status)
        = some Status.Completed
    ∧ c5_swap.status = Status.Redeem := by
  decide

/-- C5 amended: `required_action` mutates at most `redeem_confirmations` and
`status`; any mutation happens only in the Redeem branch upon observing the
redeem kernel, setting status to Completed; and the update is idempotent: a
second call returns the same swap. -/
theorem c5_required_action_frame (node : NodeView) (sw : Swap) (a : Action)
    (sw' : Swap) (h : required_action node sw = some (a, sw')) :
    sw' = { sw with redeem_confirmations := sw'.redeem_confirmations,
                    status := sw'.status }
    ∧ (sw' = sw
        ∨ (sw.status = Status.Redeem ∧ sw'.status = Status.Completed
            ∧ sw.redeem_confirmations.isSome = true
            ∧ node.redeem_kernel.isSome = true ∧ a = Action.Complete))
    ∧ (required_action node sw').map Prod.snd = some sw' := by
  cases hs : sw.status
  case Accepted =>
    unfold required_action at h
    rw [hs] at h
    simp at h
  case Redeem =>
    unfold required_action at h
    rw [hs] at h
    rcases hrc : sw.redeem_confirmations with _ | c
    · rw [hrc] at h
      simp only [Option.isNone_none, if_true, Option.some.injEq, Prod.mk.injEq] at h
      obtain ⟨rfl, rfl⟩ := h
      exact ⟨rfl, Or.inl rfl, by simp [required_action, hs, hrc]⟩
    · rw [hrc] at h
      rcases hk : node.redeem_kernel with _ | ⟨k, hgt⟩
      · rw [hk] at h
        simp only [Option.isNone_some, if_false, Option.some.injEq, Prod.mk.injEq] at h
        obtain ⟨rfl, rfl⟩ := h
        exact ⟨rfl, Or.inl rfl, by simp [required_action, hs, hrc, hk]⟩
      · rw [hk] at h
        simp only [Option.isNone_some, if_false, Option.some.injEq, Prod.mk.injEq] at h
        obtain ⟨rfl, rfl⟩ := h
        refine ⟨rfl, Or.inr ⟨rfl, rfl, by simp [hrc], by simp [hk], rfl⟩, ?_⟩
        simp [required_action]
  all_goals
    unfold required_action at h
    rw [hs] at h
    simp only [Option.some.injEq, Prod.mk.injEq] at h
    obtain ⟨rfl, rfl⟩ := h
    exact ⟨rfl, Or.inl rfl, by simp [required_action, hs]⟩

/-- C5 witness: the amended frame applied at a concrete Redeem swap with the
kernel observed; the second call is stable on the produced swap. -/
theorem c5_witness :
    (required_action sample_node c5_swap').map Prod.snd = some c5_swap' :=
  (c5_required_action_frame sample_node c5_swap Action.Complete c5_swap'
    (by decide)).2.2

/-- All reason strings the validation tail (refund checks onward) can
produce. -/
def tail_strings : List String :=
  refund_height_strings ++ refund_rest_strings ++
    ["Unexpected currency value", "Secondary lock time is different from the expected"]

/-- The validation tail passes or fails with one of its own reason strings. -/
theorem tail_shape (now_ts : Int) (tip : Nat) (o : OfferUpdate) (ls rs : Slate)
    (bd : BtcData) :
    accept_offer_checks_tail now_ts tip o ls rs bd = none
    ∨ ∃ s, s ∈ tail_strings
        ∧ accept_offer_checks_tail now_ts tip o ls rs bd =
            some (.InvalidMessageData s) := by
  unfold accept_offer_checks_tail
  rcases check_refund_height_shape tip o rs with h | ⟨s, hs, h⟩ <;> rw [h]
  · rcases check_refund_rest_shape ls rs with h2 | ⟨s, hs2, h2⟩ <;> rw [h2]
    · rcases check_currency_shape o with h3 | h3 <;> rw [h3]
      · rcases check_btc_time_shape now_ts tip o rs bd with h4 | h4 <;> rw [h4]
        · exact Or.inl rfl
        · exact Or.inr ⟨_, by decide, rfl⟩
      · exact Or.inr ⟨_, by decide, rfl⟩
    · exact Or.inr ⟨s, by simp [tail_strings, hs2], rfl⟩
  · exact Or.inr ⟨s, by simp [tail_strings, hs], rfl⟩

/-! ### C9 — clock-skew check is a hard reject, exactly above 15 s -/

/-- C9: once the version, network and role checks pass, `accept_swap_offer`
rejects with the clock-skew `InvalidMessageData` exactly when the offer's
start time lies more than 15 seconds after the buyer's local clock; no Swap
accompanies the error, and an offer within the tolerance never triggers this
error. -/
theorem c9_clock_skew (ctx : Context) (net : Network) (now_ts : Int)
    (node : NodeView) (id : Nat) (o : OfferUpdate) (b : BtcOfferUpdate)
    (hver : check_version o = none) (hnet : check_network net o = none)
    (hctx : check_context ctx = none) :
    accept_swap_offer ctx net now_ts node id o b
        = .error (.InvalidMessageData "Buyer/Seller clock are out of sync")
    ↔ o.start_time > now_ts + 15 := by
  rw [accept_error_iff ctx net now_ts node id o b _ (fun s h => ErrorKind.noConfusion h)]
  simp only [accept_offer_checks, hver, hnet, hctx]
  by_cases hc : o.start_time > now_ts + 15
  · have hcs : check_clock now_ts o =
        some (.InvalidMessageData "Buyer/Seller clock are out of sync") := by
      simp [check_clock, hc]
    rw [hcs]
    simpa using hc
  · have hcn : check_clock now_ts o = none := by simp [check_clock, hc]
    rw [hcn]
    constructor
    · intro htail
      exfalso
      rcases check_lock_slate_shape o node (Slate.ofVersioned o.lock_slate)
          with hl | hl | ⟨s, hs, hl⟩
      · rw [hl] at htail
        simp only [] at htail
        rcases tail_shape now_ts node.tip_height o (Slate.ofVersioned o.lock_slate)
            (Slate.ofVersioned o.refund_slate) (BtcData.from_offer b)
            with ht | ⟨s, hs, ht⟩ <;> rw [ht] at htail
        · exact Option.noConfusion htail
        · simp only [Option.some.injEq, ErrorKind.InvalidMessageData.injEq] at htail
          subst htail
          exact absurd hs (by decide)
      · rw [hl] at htail
        exact ErrorKind.noConfusion (Option.some.inj htail)
      · rw [hl] at htail
        simp only [Option.some.injEq, ErrorKind.InvalidMessageData.injEq] at htail
        subst htail
        exact absurd hs (by decide)
    · intro hgt
      exact absurd hgt hc

/-! ### Concrete offers for the accept_swap_offer claims -/

/-- A node at tip height 0 knowing the lock input commitment. -/
def c1_node : NodeView := ⟨0, [21], none, true⟩

/-- A valid lock slate: unlocked, one input found on chain, canonical fee,
one plain kernel carrying that fee. -/
def c1_lock_slate : Slate :=
  { Slate.blank 2 with
    amount := 1000000000
    fee := 4000000
    tx := ⟨0, ⟨[⟨21⟩], [], [⟨.Plain 4000000, 0, 0⟩]⟩⟩ }

/-- A refund slate whose only relevant field is its lock height 10. -/
def c1_refund_slate : Slate := { Slate.blank 2 with lock_height := 10 }

/-- An offer with `mwc_lock_time_seconds = 0` and no required confirmations:
its refund lock height 10 meets the claim's integer bound
`max(2*0+10, max(0, 0/60-10)) = 10`, yet the u64 underflow in the source
rejects it. -/
def c1_offer : OfferUpdate :=
  { version := CURRENT_VERSION
    network := .Mainnet
    start_time := 0
    seller_lock_first := false
    primary_amount := 1000000000
    secondary_amount := 1000000
    secondary_currency := .Btc
    lock_slate := .V4 (SlateV4.ofSlate c1_lock_slate)
    refund_slate := .V4 (SlateV4.ofSlate c1_refund_slate)
    redeem_participant := ⟨0, 1, 2, none⟩
    multisig := 3
    required_mwc_lock_confirmations := 0
    required_secondary_lock_confirmations := 2
    mwc_lock_time_seconds := 0
    seller_redeem_time := 3600 }

/-- A fully valid refund slate for lock height 110: height-locked kernel with
matching fee and height, amount + fee equal to the lock amount. -/
def c2_refund_slate : Slate :=
  { Slate.blank 2 with
    amount := 996000000
    fee := 4000000
    lock_height := 110
    tx := ⟨0, ⟨[], [], [⟨.HeightLocked 4000000 110, 0, 0⟩]⟩⟩ }

/-- A fully valid offer (10 confirmations, lock time 7200 s, redeem time
3600 s, refund locked at height 110): every validation item passes with a
BTC lock time within tolerance. -/
def c2_offer : OfferUpdate :=
  { c1_offer with
    required_mwc_lock_confirmations := 10
    mwc_lock_time_seconds := 7200
    refund_slate := .V4 (SlateV4.ofSlate c2_refund_slate) }

/-- The valid offer with its start time 100 s in the future: only the
clock-skew check fails. -/
def c3_offer : OfferUpdate := { c2_offer with start_time := 100 }

/-- The valid offer with a height-locked lock slate: the lock-height check
fails with `InvalidLockHeightLockTx`. -/
def c3bad_offer : OfferUpdate :=
  { c2_offer with
    lock_slate := .V4 (SlateV4.ofSlate { c1_lock_slate with lock_height := 1 }) }

/-- The valid offer with the refund locked at height 50 only: below the
`max(30, 110) = 110` bound, so the second refund height check fails. -/
def c1w_offer : OfferUpdate :=
  { c2_offer with refund_slate := .V4 (SlateV4.ofSlate
      { Slate.blank 2 with lock_height := 50 }) }

/-- C9 witness: at the concrete offer whose start time is 100 s ahead of the
buyer's clock (0), the clock-skew rejection fires, matching the bound. -/
theorem c9_witness :
    (accept_swap_offer sample_ctx .Mainnet 0 c1_node 7 c3_offer ⟨10300⟩
        = .error (.InvalidMessageData "Buyer/Seller clock are out of sync")
      ↔ c3_offer.start_time > 0 + 15) :=
  c9_clock_skew sample_ctx .Mainnet 0 c1_node 7 c3_offer ⟨10300⟩
    (by decide) (by decide) (by decide)

/-! ### C1 — refund lock-height bound (corrected: u64 underflow) -/

/-- Once the refund lock-height checks pass, the tail produces only the later
checks' reason strings. -/
theorem tail_rest_result (now_ts : Int) (tip : Nat) (o : OfferUpdate)
    (ls rs : Slate) (bd : BtcData) (hH : check_refund_height tip o rs = none) :
    accept_offer_checks_tail now_ts tip o ls rs bd = none
    ∨ ∃ s, s ∈ (refund_rest_strings ++
          ["Unexpected currency value", "Secondary lock time is different from the expected"])
        ∧ accept_offer_checks_tail now_ts tip o ls rs bd =
            some (.InvalidMessageData s) := by
  unfold accept_offer_checks_tail
  rw [hH]
  rcases check_refund_rest_shape ls rs with h | ⟨s, hs, h⟩ <;> rw [h]
  · rcases check_currency_shape o with h2 | h2 <;> rw [h2]
    · rcases check_btc_time_shape now_ts tip o rs bd with h3 | h3 <;> rw [h3]
      · exact Or.inl rfl
      · exact Or.inr ⟨_, by decide, rfl⟩
    · exact Or.inr ⟨_, by decide, rfl⟩
  · exact Or.inr ⟨s, by simp [hs], rfl⟩

/-- Under u64-range bounds and `mwc_lock_time_seconds ≥ 600` (no underflow),
the refund lock-height checks pass exactly when the lock height reaches
`tip + max(2*required + 10, max(secs/120, secs/60 - 10))`. -/
theorem check_refund_height_none_iff (tip : Nat) (o : OfferUpdate) (rs : Slate)
    (hsecs : 600 ≤ o.mwc_lock_time_seconds)
    (hconf : o.required_mwc_lock_confirmations < 2 ^ 32)
    (htip : tip < 2 ^ 32)
    (hsecs2 : o.mwc_lock_time_seconds < 2 ^ 32) :
    check_refund_height tip o rs = none
    ↔ ¬ (rs.lock_height < tip + max (2 * o.required_mwc_lock_confirmations + 10)
          (max (o.mwc_lock_time_seconds / 120) (o.mwc_lock_time_seconds / 60 - 10))) := by
  have e1 : add64 tip (add64 (add64 o.required_mwc_lock_confirmations
        o.required_mwc_lock_confirmations) 10)
      = tip + (2 * o.required_mwc_lock_confirmations + 10) := by
    unfold add64 U64MOD
    omega
  have e2 : sub64 (o.mwc_lock_time_seconds / 60) 10
      = o.mwc_lock_time_seconds / 60 - 10 := by
    unfold sub64 U64MOD
    omega
  have e3 : o.mwc_lock_time_seconds / 2 / 60 = o.mwc_lock_time_seconds / 120 := by
    rw [Nat.div_div_eq_div_mul]
  have e4 : add64 tip (max (o.mwc_lock_time_seconds / 120)
        (o.mwc_lock_time_seconds / 60 - 10))
      = tip + max (o.mwc_lock_time_seconds / 120) (o.mwc_lock_time_seconds / 60 - 10) := by
    have h120 : o.mwc_lock_time_seconds / 120 ≤ o.mwc_lock_time_seconds :=
      Nat.div_le_self _ _
    have h60 : o.mwc_lock_time_seconds / 60 - 10 ≤ o.mwc_lock_time_seconds :=
      le_trans (Nat.sub_le _ _) (Nat.div_le_self _ _)
    unfold add64 U64MOD
    rcases max_choice (o.mwc_lock_time_seconds / 120)
        (o.mwc_lock_time_seconds / 60 - 10) with hmx | hmx <;> rw [hmx] <;> omega
  simp only [check_refund_height, e1, e2, e3, e4]
  split
  · rename_i h1
    refine iff_of_false (by simp) (not_not_intro ?_)
    have := Nat.le_max_left (2 * o.required_mwc_lock_confirmations + 10)
      (max (o.mwc_lock_time_seconds / 120) (o.mwc_lock_time_seconds / 60 - 10))
    omega
  · rename_i h1
    split
    · rename_i h2
      refine iff_of_false (by simp) (not_not_intro ?_)
      have := Nat.le_max_right (2 * o.required_mwc_lock_confirmations + 10)
        (max (o.mwc_lock_time_seconds / 120) (o.mwc_lock_time_seconds / 60 - 10))
      omega
    · rename_i h2
      refine iff_of_true rfl ?_
      rcases max_choice (2 * o.required_mwc_lock_confirmations + 10)
          (max (o.mwc_lock_time_seconds / 120) (o.mwc_lock_time_seconds / 60 - 10))
          with hmx | hmx <;> rw [hmx] <;> omega

/-- The tail rejects with one of the two refund lock-height reasons exactly
when the lock height is below the combined bound. -/
theorem tail_refund_height_iff (now_ts : Int) (tip : Nat) (o : OfferUpdate)
    (ls rs : Slate) (bd : BtcData)
    (hsecs : 600 ≤ o.mwc_lock_time_seconds)
    (hconf : o.required_mwc_lock_confirmations < 2 ^ 32)
    (htip : tip < 2 ^ 32)
    (hsecs2 : o.mwc_lock_time_seconds < 2 ^ 32) :
    (accept_offer_checks_tail now_ts tip o ls rs bd = some (.InvalidMessageData
        "Refund lock slate doesn't meet required number of confirmations")
     ∨ accept_offer_checks_tail now_ts tip o ls rs bd = some (.InvalidMessageData
        "Refund lock slate doesn't meet required mwc_lock_time"))
    ↔ rs.lock_height < tip + max (2 * o.required_mwc_lock_confirmations + 10)
        (max (o.mwc_lock_time_seconds / 120) (o.mwc_lock_time_seconds / 60 - 10)) := by
  cases hH : check_refund_height tip o rs with
  | none =>
    have hb := (check_refund_height_none_iff tip o rs hsecs hconf htip hsecs2).mp hH
    refine iff_of_false ?_ hb
    rintro (h | h) <;>
      (rcases tail_rest_result now_ts tip o ls rs bd hH with ht | ⟨s, hs, ht⟩ <;>
        rw [ht] at h)
    · exact Option.noConfusion h
    · simp only [Option.some.injEq, ErrorKind.InvalidMessageData.injEq] at h
      subst h
      exact absurd hs (by decide)
    · exact Option.noConfusion h
    · simp only [Option.some.injEq, ErrorKind.InvalidMessageData.injEq] at h
      subst h
      exact absurd hs (by decide)
  | some e =>
    have hbound : rs.lock_height < tip + max (2 * o.required_mwc_lock_confirmations + 10)
        (max (o.mwc_lock_time_seconds / 120) (o.mwc_lock_time_seconds / 60 - 10)) := by
      by_contra hnb
      have hnone := (check_refund_height_none_iff tip o rs hsecs hconf htip hsecs2).mpr hnb
      rw [hH] at hnone
      exact Option.noConfusion hnone
    refine iff_of_true ?_ hbound
    rcases check_refund_height_shape tip o rs with hsh | ⟨s, hs, hsh⟩
    · rw [hH] at hsh
      exact Option.noConfusion hsh
    · rw [hH] at hsh
      obtain rfl : e = .InvalidMessageData s := Option.some.inj hsh
      have hs' : s = "Refund lock slate doesn't meet required number of confirmations"
          ∨ s = "Refund lock slate doesn't meet required mwc_lock_time" := by
        simpa [refund_height_strings] using hs
      unfold accept_offer_checks_tail
      rw [hH]
      rcases hs' with rfl | rfl
      · exact Or.inl rfl
      · exact Or.inr rfl

/-- C1 counterexample: at the concrete offer `c1_offer`
(`mwc_lock_time_seconds = 0`, no required confirmations, refund locked at
height 10, tip 0) the claim's integer bound is met — the bound is 10 and the
lock height is 10 — yet the code rejects the offer: the u64 subtraction
`mwc_lock_time_seconds / 60 - 10` wraps around. -/
theorem c1_counterexample :
    accept_swap_offer sample_ctx .Mainnet 0 c1_node 7 c1_offer ⟨10300⟩
        = .error (.InvalidMessageData "Refund lock slate doesn't meet required mwc_lock_time")
    ∧ ¬ ((Slate.ofVersioned c1_offer.refund_slate).lock_height
          < c1_node.tip_height + max (2 * c1_offer.required_mwc_lock_confirmations + 10)
              (max (c1_offer.mwc_lock_time_seconds / 120)
                (c1_offer.mwc_lock_time_seconds / 60 - 10))) := by
  constructor
  · rfl
  · decide

/-- C1 amended: assuming the earlier validation items pass, that
`mwc_lock_time_seconds ≥ 600` (so `mwc_lock_time_seconds/60 - 10` does not
underflow) and that confirmations, tip and lock time are within `2^32`,
`accept_swap_offer` rejects with one of the two refund lock-height
`InvalidMessageData` reasons exactly when `refund.lock_height <
tip + max(2*required_mwc_lock_confirmations + 10, max(mwc_lock_time_seconds/120,
mwc_lock_time_seconds/60 - 10))`; every offer meeting the bound passes this
check. -/
theorem c1_refund_lock_height (ctx : Context) (net : Network) (now_ts : Int)
    (node : NodeView) (id : Nat) (o : OfferUpdate) (b : BtcOfferUpdate)
    (hver : check_version o = none) (hnet : check_network net o = none)
    (hctx : check_context ctx = none) (hclk : check_clock now_ts o = none)
    (hlock : check_lock_slate o node (Slate.ofVersioned o.lock_slate) = none)
    (hsecs : 600 ≤ o.mwc_lock_time_seconds)
    (hconf : o.required_mwc_lock_confirmations < 2 ^ 32)
    (htip : node.tip_height < 2 ^ 32)
    (hsecs2 : o.mwc_lock_time_seconds < 2 ^ 32) :
    (accept_swap_offer ctx net now_ts node id o b = .error (.InvalidMessageData
        "Refund lock slate doesn't meet required number of confirmations")
     ∨ accept_swap_offer ctx net now_ts node id o b = .error (.InvalidMessageData
        "Refund lock slate doesn't meet required mwc_lock_time"))
    ↔ (Slate.ofVersioned o.refund_slate).lock_height
        < node.tip_height + max (2 * o.required_mwc_lock_confirmations + 10)
            (max (o.mwc_lock_time_seconds / 120) (o.mwc_lock_time_seconds / 60 - 10)) := by
  rw [accept_error_iff ctx net now_ts node id o b _ (fun s h => ErrorKind.noConfusion h),
      accept_error_iff ctx net now_ts node id o b _ (fun s h => ErrorKind.noConfusion h)]
  simp only [accept_offer_checks, hver, hnet, hctx, hclk, hlock]
  exact tail_refund_height_iff now_ts node.tip_height o (Slate.ofVersioned o.lock_slate)
    (Slate.ofVersioned o.refund_slate) (BtcData.from_offer b) hsecs hconf htip hsecs2

/-- C1 witness: at the valid offer whose refund is locked at height 50 only
(bound 110), the amended equivalence yields the rejection. -/
theorem c1_witness :
    accept_swap_offer sample_ctx .Mainnet 0 c1_node 7 c1w_offer ⟨10300⟩
        = .error (.InvalidMessageData
          "Refund lock slate doesn't meet required number of confirmations")
    ∨ accept_swap_offer sample_ctx .Mainnet 0 c1_node 7 c1w_offer ⟨10300⟩
        = .error (.InvalidMessageData
          "Refund lock slate doesn't meet required mwc_lock_time") :=
  (c1_refund_lock_height sample_ctx .Mainnet 0 c1_node 7 c1w_offer ⟨10300⟩
    (by decide) (by decide) (by decide) (by decide) (by decide)
    (by decide) (by decide) (by decide) (by decide)).mpr (by decide)

/-! ### C2 — BTC lock-time tolerance (5% of seller_redeem_time) -/

/-- The `i64` product `(lock_height - tip) * 60` does not wrap. -/
theorem wrap_d60 (a b : Nat) (hle : b ≤ a) (ha : a < 2 ^ 32) :
    wrapI64 (((a : Int) - (b : Int)) * 60) = ((a : Int) - (b : Int)) * 60 :=
  wrapI64_eq _ (by omega) (by omega)

/-- Adding the current timestamp keeps the value in `i64` range. -/
theorem wrap_now_d60 (now_ts : Int) (a b : Nat) (hle : b ≤ a) (ha : a < 2 ^ 32)
    (hnow0 : 0 ≤ now_ts) (hnow : now_ts < 2 ^ 40) :
    wrapI64 (now_ts + ((a : Int) - (b : Int)) * 60)
      = now_ts + ((a : Int) - (b : Int)) * 60 :=
  wrapI64_eq _ (by omega) (by omega)

/-- The expected secondary lock time stays in `i64` range. -/
theorem wrap_expected (now_ts : Int) (a b s : Nat) (hle : b ≤ a) (ha : a < 2 ^ 32)
    (hnow0 : 0 ≤ now_ts) (hnow : now_ts < 2 ^ 40) (hs : s < 2 ^ 32) :
    wrapI64 (now_ts + ((a : Int) - (b : Int)) * 60 + (s : Int))
      = now_ts + ((a : Int) - (b : Int)) * 60 + (s : Int) :=
  wrapI64_eq _ (by omega) (by omega)

/-- The deviation of the observed lock time stays in `i64` range. -/
theorem wrap_diff (now_ts : Int) (a b s t : Nat) (hle : b ≤ a) (ha : a < 2 ^ 32)
    (hnow0 : 0 ≤ now_ts) (hnow : now_ts < 2 ^ 40) (hs : s < 2 ^ 32)
    (ht : t < 2 ^ 40) :
    wrapI64 ((t : Int) - (now_ts + ((a : Int) - (b : Int)) * 60 + (s : Int)))
      = (t : Int) - (now_ts + ((a : Int) - (b : Int)) * 60 + (s : Int)) :=
  wrapI64_eq _ (by omega) (by omega)

/-- The BTC lock-time check alone, with the wrap arithmetic removed under
range bounds. -/
theorem check_btc_time_iff (now_ts : Int) (tip : Nat) (o : OfferUpdate)
    (rs : Slate) (bd : BtcData)
    (hle : tip ≤ rs.lock_height) (htip : tip < 2 ^ 32)
    (hlh : rs.lock_height < 2 ^ 32)
    (hnow0 : 0 ≤ now_ts) (hnow : now_ts < 2 ^ 40)
    (hsrt : o.seller_redeem_time < 2 ^ 32)
    (hbtc : bd.lock_time < 2 ^ 40) :
    check_btc_time now_ts tip o rs bd
        = some (.InvalidMessageData "Secondary lock time is different from the expected")
    ↔ |(bd.lock_time : Int) - (now_ts
          + ((rs.lock_height : Int) - (tip : Int)) * 60
          + (o.seller_redeem_time : Int))|
        > ((o.seller_redeem_time / 20 : Nat) : Int) := by
  have e1 : sub64 rs.lock_height tip = rs.lock_height - tip :=
    sub64_eq _ _ hle (by omega)
  have e2 : toI64 (rs.lock_height - tip) = (rs.lock_height : Int) - (tip : Int) := by
    rw [toI64_eq _ (by omega), Nat.cast_sub hle]
  have e5 : toI64 o.seller_redeem_time = (o.seller_redeem_time : Int) :=
    toI64_eq _ (by omega)
  have e7 : toI64 bd.lock_time = (bd.lock_time : Int) := toI64_eq _ (by omega)
  have e9 : toI64 (o.seller_redeem_time / 20) = ((o.seller_redeem_time / 20 : Nat) : Int) :=
    toI64_eq _ (by have := Nat.div_le_self o.seller_redeem_time 20; omega)
  have e3 := wrap_d60 rs.lock_height tip hle hlh
  have e4 := wrap_now_d60 now_ts rs.lock_height tip hle hlh hnow0 hnow
  have e6 := wrap_expected now_ts rs.lock_height tip o.seller_redeem_time
    hle hlh hnow0 hnow hsrt
  have e8 := wrap_diff now_ts rs.lock_height tip o.seller_redeem_time bd.lock_time
    hle hlh hnow0 hnow hsrt hbtc
  simp only [check_btc_time, e1, e2, e3, e4, e5, e6, e7, e8, e9, Int.natCast_natAbs]
  split
  · rename_i hcond
    exact iff_of_true rfl hcond
  · rename_i hcond
    exact iff_of_false (by simp) hcond

/-- C2: once every earlier validation item passes (and all quantities are in
realistic u64/i64 ranges, so no wrap occurs), `accept_swap_offer` rejects
with the secondary-lock-time `InvalidMessageData` exactly when the observed
BTC lock time deviates from `now + (refund.lock_height - tip)*60 +
seller_redeem_time` by more than `seller_redeem_time / 20`; a deviation
within that 5% bound is accepted by this check. -/
theorem c2_btc_lock_time (ctx : Context) (net : Network) (now_ts : Int)
    (node : NodeView) (id : Nat) (o : OfferUpdate) (b : BtcOfferUpdate)
    (hver : check_version o = none) (hnet : check_network net o = none)
    (hctx : check_context ctx = none) (hclk : check_clock now_ts o = none)
    (hlock : check_lock_slate o node (Slate.ofVersioned o.lock_slate) = none)
    (hrefH : check_refund_height node.tip_height o (Slate.ofVersioned o.refund_slate) = none)
    (hrefR : check_refund_rest (Slate.ofVersioned o.lock_slate)
        (Slate.ofVersioned o.refund_slate) = none)
    (hcur : check_currency o = none)
    (hconf : o.required_mwc_lock_confirmations < 2 ^ 32)
    (htip : node.tip_height < 2 ^ 32)
    (hlh : (Slate.ofVersioned o.refund_slate).lock_height < 2 ^ 32)
    (hnow0 : 0 ≤ now_ts) (hnow : now_ts < 2 ^ 40)
    (hsrt : o.seller_redeem_time < 2 ^ 32)
    (hbtc : b.lock_time < 2 ^ 40) :
    accept_swap_offer ctx net now_ts node id o b
        = .error (.InvalidMessageData "Secondary lock time is different from the expected")
    ↔ |(b.lock_time : Int) - (now_ts
          + (((Slate.ofVersioned o.refund_slate).lock_height : Int)
              - (node.tip_height : Int)) * 60
          + (o.seller_redeem_time : Int))|
        > ((o.seller_redeem_time / 20 : Nat) : Int) := by
  have hle : node.tip_height ≤ (Slate.ofVersioned o.refund_slate).lock_height := by
    simp only [check_refund_height] at hrefH
    split at hrefH
    · exact absurd hrefH (by simp)
    · rename_i h1
      unfold add64 U64MOD at h1
      omega
  rw [accept_error_iff ctx net now_ts node id o b _ (fun s h => ErrorKind.noConfusion h)]
  simp only [accept_offer_checks, hver, hnet, hctx, hclk, hlock,
    accept_offer_checks_tail, hrefH, hrefR, hcur]
  exact check_btc_time_iff now_ts node.tip_height o (Slate.ofVersioned o.refund_slate)
    (BtcData.from_offer b) hle htip hlh hnow0 hnow hsrt hbtc

/-- The concrete BTC offer payload used by the C2 witness: lock time 10300,
within 5% of the expected 10200. -/
def c2_btc : BtcOfferUpdate := ⟨10300⟩

/-- C2 witness: the tolerance equivalence at the concrete fully-valid offer;
a 100-second deviation with a 180-second tolerance is accepted. -/
theorem c2_witness :
    accept_swap_offer sample_ctx .Mainnet 0 c1_node 7 c2_offer c2_btc
        = .error (.InvalidMessageData "Secondary lock time is different from the expected")
    ↔ |(c2_btc.lock_time : Int) - (0
          + (((Slate.ofVersioned c2_offer.refund_slate).lock_height : Int)
              - (c1_node.tip_height : Int)) * 60
          + (c2_offer.seller_redeem_time : Int))|
        > ((c2_offer.seller_redeem_time / 20 : Nat) : Int) :=
  c2_btc_lock_time sample_ctx .Mainnet 0 c1_node 7 c2_offer c2_btc
    (by decide) (by decide) (by decide) (by decide) (by decide) (by decide)
    (by decide) (by decide) (by decide) (by decide) (by decide) (by decide)
    (by decide) (by decide) (by decide)

/-! ### C3 — validation failures (corrected: not all are InvalidMessageData) -/

/-- With the lock slate unlocked (`lock_height = 0`) the lock-slate checks
produce only `InvalidMessageData` reasons. -/
theorem check_lock_slate_zero_shape (o : OfferUpdate) (node : NodeView) (ls : Slate)
    (h0 : ls.lock_height = 0) :
    check_lock_slate o node ls = none
    ∨ ∃ s, s ∈ lock_slate_strings
        ∧ check_lock_slate o node ls = some (.InvalidMessageData s) := by
  unfold check_lock_slate
  rw [h0, if_neg (by omega)]
  split
  · exact Or.inr ⟨_, by decide, rfl⟩
  split
  · exact Or.inr ⟨_, by decide, rfl⟩
  split
  · exact Or.inr ⟨_, by decide, rfl⟩
  split
  · exact Or.inr ⟨_, by decide, rfl⟩
  cases hk : ls.tx.body.kernels.head? with
  | none => exact Or.inr ⟨_, by decide, rfl⟩
  | some k =>
    dsimp only
    cases hf : k.features with
    | Plain fee =>
      dsimp only
      split
      · exact Or.inr ⟨_, by decide, rfl⟩
      · rcases check_lock_inputs_shape node ls with h | ⟨s, hs, h⟩
        · exact Or.inl h
        · exact Or.inr ⟨s, hs, h⟩
    | Coinbase => exact Or.inr ⟨_, by decide, rfl⟩
    | HeightLocked fee lh => exact Or.inr ⟨_, by decide, rfl⟩

/-- C3 amended: any failing validation item makes `accept_swap_offer` return
exactly the item's error with no Swap (the `Err` carries the error alone);
the error is one of `IncompatibleVersion`, `UnexpectedNetwork`,
`UnexpectedAction` (wrong local role), `InvalidLockHeightLockTx`, or
`InvalidMessageData` with a reason string — and once the version, network,
role and lock-height items pass, every remaining validation failure is an
`InvalidMessageData` with a reason string. -/
theorem c3_validation_errors (ctx : Context) (net : Network) (now_ts : Int)
    (node : NodeView) (id : Nat) (o : OfferUpdate) (b : BtcOfferUpdate)
    (e : ErrorKind) (h : accept_offer_checks ctx net now_ts node o b = some e) :
    accept_swap_offer ctx net now_ts node id o b = .error e
    ∧ (e = .IncompatibleVersion o.version CURRENT_VERSION
        ∨ e = .UnexpectedNetwork ", get offer for wrong network"
        ∨ e = .UnexpectedAction "Context::unwrap_buyer(), not a buyer context"
        ∨ e = .InvalidLockHeightLockTx
        ∨ ∃ s, e = .InvalidMessageData s)
    ∧ (check_version o = none → check_network net o = none →
        check_context ctx = none →
        (Slate.ofVersioned o.lock_slate).lock_height = 0 →
        ∃ s, e = .InvalidMessageData s) := by
  refine ⟨accept_of_checks_some ctx net now_ts node id o b e h, ?_, ?_⟩
  · simp only [accept_offer_checks] at h
    rcases check_version_shape o with h1 | h1
    · rw [h1] at h
      rcases check_network_shape net o with h2 | h2
      · rw [h2] at h
        rcases check_context_shape ctx with h3 | h3
        · rw [h3] at h
          rcases check_clock_shape now_ts o with h4 | h4
          · rw [h4] at h
            rcases check_lock_slate_shape o node (Slate.ofVersioned o.lock_slate)
                with h5 | h5 | ⟨s, hs, h5⟩
            · rw [h5] at h
              rcases tail_shape now_ts node.tip_height o
                  (Slate.ofVersioned o.lock_slate) (Slate.ofVersioned o.refund_slate)
                  (BtcData.from_offer b) with ht | ⟨s, hs, ht⟩ <;> rw [ht] at h
              · simp at h
              · exact Or.inr (Or.inr (Or.inr (Or.inr ⟨s, (Option.some.inj h).symm⟩)))
            · rw [h5] at h
              exact Or.inr (Or.inr (Or.inr (Or.inl (Option.some.inj h).symm)))
            · rw [h5] at h
              exact Or.inr (Or.inr (Or.inr (Or.inr ⟨s, (Option.some.inj h).symm⟩)))
          · rw [h4] at h
            exact Or.inr (Or.inr (Or.inr (Or.inr ⟨_, (Option.some.inj h).symm⟩)))
        · rw [h3] at h
          exact Or.inr (Or.inr (Or.inl (Option.some.inj h).symm))
      · rw [h2] at h
        exact Or.inr (Or.inl (Option.some.inj h).symm)
    · rw [h1] at h
      exact Or.inl (Option.some.inj h).symm
  · intro hv hn hc hlh0
    simp only [accept_offer_checks, hv, hn, hc] at h
    rcases check_clock_shape now_ts o with h4 | h4
    · rw [h4] at h
      rcases check_lock_slate_zero_shape o node (Slate.ofVersioned o.lock_slate) hlh0
          with h5 | ⟨s, hs, h5⟩
      · rw [h5] at h
        rcases tail_shape now_ts node.tip_height o
            (Slate.ofVersioned o.lock_slate) (Slate.ofVersioned o.refund_slate)
            (BtcData.from_offer b) with ht | ⟨s, hs, ht⟩ <;> rw [ht] at h
        · simp at h
        · exact ⟨s, (Option.some.inj h).symm⟩
      · rw [h5] at h
        exact ⟨s, (Option.some.inj h).symm⟩
    · rw [h4] at h
      exact ⟨_, (Option.some.inj h).symm⟩

/-- Whether an `accept_swap_offer` result is an `InvalidMessageData`
rejection. -/
def is_invalid_message_data : Except ErrorKind Swap → Bool
  | .error (.InvalidMessageData _) => true
  | _ => false

/-- C3 counterexample: the offer whose lock slate is height-locked fails a
Buyer validation item, but the error returned is `InvalidLockHeightLockTx` —
not an `InvalidMessageData` with a reason string. -/
theorem c3_counterexample :
    accept_swap_offer sample_ctx .Mainnet 0 c1_node 7 c3bad_offer c2_btc
        = .error .InvalidLockHeightLockTx
    ∧ is_invalid_message_data
        (accept_swap_offer sample_ctx .Mainnet 0 c1_node 7 c3bad_offer c2_btc)
        = false := by
  constructor
  · rfl
  · rfl

/-- C3 witness: the clock-skew failure at a concrete offer is returned as-is
by `accept_swap_offer` (no Swap accompanies it). -/
theorem c3_witness :
    accept_swap_offer sample_ctx .Mainnet 0 c1_node 7 c3_offer c2_btc
        = .error (.InvalidMessageData "Buyer/Seller clock are out of sync") :=
  (c3_validation_errors sample_ctx .Mainnet 0 c1_node 7 c3_offer c2_btc
    (.InvalidMessageData "Buyer/Seller clock are out of sync") (by decide)).1

end MwcWallet
